import Mathlib

/-!
# Secure-monitor configuration items

A shallow embedding of `exosphere/src/configitem.c`: the three process-wide
flags, the write dispatcher `configitem_set`, the read dispatcher
`configitem_get`, the debug-mode override setter and the privileged
convenience queries.

Conventions of the embedding.

* The three file-scope flags are the fields of `State`; every operation takes
  the state and hands back the state it leaves behind.
* The headers the file includes (`bootconfig.h`, `fuse.h`, `exocfg.h`,
  `masterkey.h`, `interrupt.h`, `package2.h`, `atmosphere/version.h`) are not
  part of the tree.  What they provide (the collaborators' results and the
  compile-time constants) is collected in `Env`, one field per function or
  macro, under the name the source uses.  Integer results are natural numbers
  (unsigned machine values); flags are `Bool`.
* `uint64_t` stores reduce the stored value modulo `2 ^ 64`.
* The memory behind `p_outvalue` is a list of 64-bit words, word 0 first.
-/

set_option linter.unusedVariables false

namespace Exosphere

/-- Item identifiers.  One constructor for each case label of the switch in
`configitem_get`; `unlisted raw` is any other identifier value a caller may
pass (the numeric values of the labels live in `configitem.h`). -/
inductive ConfigItem where
  | CONFIGITEM_DISABLEPROGRAMVERIFICATION
  | CONFIGITEM_DRAMID
  | CONFIGITEM_SECURITYENGINEIRQ
  | CONFIGITEM_VERSION
  | CONFIGITEM_HARDWARETYPE
  | CONFIGITEM_ISRETAIL
  | CONFIGITEM_ISRECOVERYBOOT
  | CONFIGITEM_DEVICEID
  | CONFIGITEM_BOOTREASON
  | CONFIGITEM_MEMORYARRANGE
  | CONFIGITEM_ISDEBUGMODE
  | CONFIGITEM_KERNELMEMORYCONFIGURATION
  | CONFIGITEM_BATTERYPROFILE
  | CONFIGITEM_ISQUESTUNIT
  | CONFIGITEM_NEWHARDWARETYPE_5X
  | CONFIGITEM_NEWKEYGENERATION_5X
  | CONFIGITEM_PACKAGE2HASH_5X
  | CONFIGITEM_EXOSPHERE_VERSION
  | unlisted (raw : Nat)
  deriving DecidableEq, Repr

open ConfigItem

/-- The case labels of the switch in `configitem_get`, in source order. -/
def handledItems : List ConfigItem :=
  [CONFIGITEM_DISABLEPROGRAMVERIFICATION, CONFIGITEM_DRAMID,
   CONFIGITEM_SECURITYENGINEIRQ, CONFIGITEM_VERSION, CONFIGITEM_HARDWARETYPE,
   CONFIGITEM_ISRETAIL, CONFIGITEM_ISRECOVERYBOOT, CONFIGITEM_DEVICEID,
   CONFIGITEM_BOOTREASON, CONFIGITEM_MEMORYARRANGE, CONFIGITEM_ISDEBUGMODE,
   CONFIGITEM_KERNELMEMORYCONFIGURATION, CONFIGITEM_BATTERYPROFILE,
   CONFIGITEM_ISQUESTUNIT, CONFIGITEM_NEWHARDWARETYPE_5X,
   CONFIGITEM_NEWKEYGENERATION_5X, CONFIGITEM_PACKAGE2HASH_5X,
   CONFIGITEM_EXOSPHERE_VERSION]

/-- The memory behind `p_outvalue`: consecutive 64-bit words. -/
abbrev OutBuf := List Nat

/-- The file-scope variables of `configitem.c`. -/
structure State where
  g_battery_profile : Bool
  g_debugmode_override_user : Bool
  g_debugmode_override_priv : Bool
  deriving DecidableEq, Repr

/-- The initialisers of the file-scope variables: all three are `false`. -/
def State.boot : State :=
  { g_battery_profile := false
    g_debugmode_override_user := false
    g_debugmode_override_priv := false }

/-- What the included headers provide: the collaborators' results (fuse
reader, boot configuration, target firmware, master key) and the compile-time
constants.  `bootconfig_get_package2_hash_for_recovery` writes through the
pointer it is given, so it is a transformer of the output memory. -/
structure Env where
  bootconfig_disable_program_verification : Bool
  bootconfig_is_recovery_boot : Bool
  bootconfig_is_debug_mode : Bool
  bootconfig_get_boot_reason : Nat
  bootconfig_get_memory_arrangement : Nat
  bootconfig_get_kernel_memory_configuration : Nat
  bootconfig_get_package2_hash_for_recovery : OutBuf → OutBuf
  fuse_get_dram_id : Nat
  fuse_get_hardware_type : Nat
  fuse_get_retail_type : Nat
  fuse_get_device_id : Nat
  fuse_get_5x_key_generation : Nat
  fuse_get_reserved_odm : Nat → Nat
  exosphere_get_target_firmware : Nat
  mkey_get_revision : Nat
  INTERRUPT_ID_USER_SECURITY_ENGINE : Nat
  PACKAGE2_MAXVER_400_410 : Nat
  EXOSPHERE_TARGET_FIRMWARE_300 : Nat
  EXOSPHERE_TARGET_FIRMWARE_400 : Nat
  EXOSPHERE_TARGET_FIRMWARE_500 : Nat
  ATMOSPHERE_RELEASE_VERSION_MAJOR : Nat
  ATMOSPHERE_RELEASE_VERSION_MINOR : Nat
  ATMOSPHERE_RELEASE_VERSION_MICRO : Nat

/-- The store `*p_outvalue = v`: word 0 becomes `v` reduced to 64 bits, the
words after it are untouched. -/
def store_u64 (p_outvalue : OutBuf) (v : Nat) : OutBuf :=
  (v % 2 ^ 64) :: p_outvalue.drop 1

/-- The load `*p_outvalue` of a caller that reads the scalar back. -/
def load_u64 (p_outvalue : OutBuf) : Nat :=
  p_outvalue.headD 0

/-- The conversion `(int)(b)` of a C `bool`, then widened to `uint64_t`. -/
def bool_to_int (b : Bool) : Nat :=
  if b then 1 else 0

/-- What `configitem_get` leaves behind: the returned `uint32_t`, the memory
behind `p_outvalue`, and the file-scope variables. -/
structure GetResult where
  status : Nat
  out : OutBuf
  state : State
  deriving DecidableEq, Repr

/-- What `configitem_set` leaves behind: the returned `uint32_t` and the
file-scope variables. -/
structure SetResult where
  status : Nat
  state : State
  deriving DecidableEq, Repr

/-- The word stored for `CONFIGITEM_EXOSPHERE_VERSION`: the expression of the
source, operator for operator. -/
def exosphere_version_word (e : Env) : Nat :=
  ((e.ATMOSPHERE_RELEASE_VERSION_MAJOR &&& 0xFF) <<< 32) |||
  ((e.ATMOSPHERE_RELEASE_VERSION_MINOR &&& 0xFF) <<< 24) |||
  ((e.ATMOSPHERE_RELEASE_VERSION_MICRO &&& 0xFF) <<< 16) |||
  ((e.exosphere_get_target_firmware &&& 0xFF) <<< 8) |||
  ((e.mkey_get_revision &&& 0xFF) <<< 0)

/-- The write dispatcher `configitem_set`.  The parameter `privileged` is not
read by the body. -/
def configitem_set (s : State) (privileged : Bool) (item : ConfigItem)
    (value : Nat) : SetResult :=
  if item ≠ CONFIGITEM_BATTERYPROFILE then
    { status := 2, state := s }
  else
    { status := 0, state := { s with g_battery_profile := (value != 0) } }

/-- The setter `configitem_set_debugmode_override(user, priv)`. -/
def configitem_set_debugmode_override (s : State) (user priv : Bool) : State :=
  { s with g_debugmode_override_user := user
           g_debugmode_override_priv := priv }

/-- The accessor `configitem_should_profile_battery`. -/
def configitem_should_profile_battery (s : State) : Bool :=
  s.g_battery_profile

/-- The read dispatcher `configitem_get`: `result` starts at 0, each case
either stores through `p_outvalue` or sets `result = 2`. -/
def configitem_get (e : Env) (s : State) (privileged : Bool)
    (item : ConfigItem) (p_outvalue : OutBuf) : GetResult :=
  match item with
  | CONFIGITEM_DISABLEPROGRAMVERIFICATION =>
    ⟨0, store_u64 p_outvalue (bool_to_int e.bootconfig_disable_program_verification), s⟩
  | CONFIGITEM_DRAMID =>
    ⟨0, store_u64 p_outvalue e.fuse_get_dram_id, s⟩
  | CONFIGITEM_SECURITYENGINEIRQ =>
    ⟨0, store_u64 p_outvalue e.INTERRUPT_ID_USER_SECURITY_ENGINE, s⟩
  | CONFIGITEM_VERSION =>
    -- the constant minus one, converted to uint64_t (wraps when the constant is 0)
    ⟨0, store_u64 p_outvalue (e.PACKAGE2_MAXVER_400_410 + (2 ^ 64 - 1)), s⟩
  | CONFIGITEM_HARDWARETYPE =>
    ⟨0, store_u64 p_outvalue e.fuse_get_hardware_type, s⟩
  | CONFIGITEM_ISRETAIL =>
    ⟨0, store_u64 p_outvalue e.fuse_get_retail_type, s⟩
  | CONFIGITEM_ISRECOVERYBOOT =>
    ⟨0, store_u64 p_outvalue (bool_to_int e.bootconfig_is_recovery_boot), s⟩
  | CONFIGITEM_DEVICEID =>
    ⟨0, store_u64 p_outvalue e.fuse_get_device_id, s⟩
  | CONFIGITEM_BOOTREASON =>
    if e.exosphere_get_target_firmware < e.EXOSPHERE_TARGET_FIRMWARE_400 then
      ⟨0, store_u64 p_outvalue e.bootconfig_get_boot_reason, s⟩
    else
      ⟨2, p_outvalue, s⟩
  | CONFIGITEM_MEMORYARRANGE =>
    ⟨0, store_u64 p_outvalue e.bootconfig_get_memory_arrangement, s⟩
  | CONFIGITEM_ISDEBUGMODE =>
    if (privileged && s.g_debugmode_override_priv)
        || (!privileged && s.g_debugmode_override_user) then
      ⟨0, store_u64 p_outvalue 1, s⟩
    else
      ⟨0, store_u64 p_outvalue (bool_to_int e.bootconfig_is_debug_mode), s⟩
  | CONFIGITEM_KERNELMEMORYCONFIGURATION =>
    ⟨0, store_u64 p_outvalue e.bootconfig_get_kernel_memory_configuration, s⟩
  | CONFIGITEM_BATTERYPROFILE =>
    ⟨0, store_u64 p_outvalue (bool_to_int s.g_battery_profile), s⟩
  | CONFIGITEM_ISQUESTUNIT =>
    if e.exosphere_get_target_firmware ≥ e.EXOSPHERE_TARGET_FIRMWARE_300 then
      ⟨0, store_u64 p_outvalue ((e.fuse_get_reserved_odm 4 >>> 10) &&& 1), s⟩
    else
      ⟨2, p_outvalue, s⟩
  | CONFIGITEM_NEWHARDWARETYPE_5X =>
    if e.exosphere_get_target_firmware ≥ e.EXOSPHERE_TARGET_FIRMWARE_500 then
      ⟨0, store_u64 p_outvalue 0, s⟩
    else
      ⟨2, p_outvalue, s⟩
  | CONFIGITEM_NEWKEYGENERATION_5X =>
    if e.exosphere_get_target_firmware ≥ e.EXOSPHERE_TARGET_FIRMWARE_500 then
      ⟨0, store_u64 p_outvalue e.fuse_get_5x_key_generation, s⟩
    else
      ⟨2, p_outvalue, s⟩
  | CONFIGITEM_PACKAGE2HASH_5X =>
    if e.exosphere_get_target_firmware ≥ e.EXOSPHERE_TARGET_FIRMWARE_500
        && e.bootconfig_is_recovery_boot then
      ⟨0, e.bootconfig_get_package2_hash_for_recovery p_outvalue, s⟩
    else
      ⟨2, p_outvalue, s⟩
  | CONFIGITEM_EXOSPHERE_VERSION =>
    ⟨0, store_u64 p_outvalue (exosphere_version_word e), s⟩
  | unlisted _ =>
    ⟨2, p_outvalue, s⟩

/-- The query `configitem_is_recovery_boot`.  The local `is_recovery_boot` is
not initialised, so its prior content `local_init` is arbitrary; `none` is
`generic_panic()`, which does not return. -/
def configitem_is_recovery_boot (e : Env) (s : State) (local_init : Nat) :
    Option (Bool × State) :=
  let r := configitem_get e s true CONFIGITEM_ISRECOVERYBOOT [local_init]
  if r.status ≠ 0 then none
  else some (load_u64 r.out != 0, r.state)

/-- The query `configitem_is_retail`; `none` is `generic_panic()`. -/
def configitem_is_retail (e : Env) (s : State) (local_init : Nat) :
    Option (Bool × State) :=
  let r := configitem_get e s true CONFIGITEM_ISRETAIL [local_init]
  if r.status ≠ 0 then none
  else some (load_u64 r.out != 0, r.state)

/-- The query `configitem_get_hardware_type`; `none` is `generic_panic()`. -/
def configitem_get_hardware_type (e : Env) (s : State) (local_init : Nat) :
    Option (Nat × State) :=
  let r := configitem_get e s true CONFIGITEM_HARDWARETYPE [local_init]
  if r.status ≠ 0 then none
  else some (load_u64 r.out, r.state)

/-- A concrete environment used to evaluate the operations: retail unit on
target firmware 5 (thresholds 3, 4, 5), recovery boot, debug flag clear. -/
def sampleEnv : Env :=
  { bootconfig_disable_program_verification := false
    bootconfig_is_recovery_boot := true
    bootconfig_is_debug_mode := false
    bootconfig_get_boot_reason := 0x11
    bootconfig_get_memory_arrangement := 1
    bootconfig_get_kernel_memory_configuration := 0x1000
    bootconfig_get_package2_hash_for_recovery := fun out => [0xA1, 0xA2, 0xA3, 0xA4] ++ out.drop 4
    fuse_get_dram_id := 2
    fuse_get_hardware_type := 1
    fuse_get_retail_type := 1
    fuse_get_device_id := 0x1234
    fuse_get_5x_key_generation := 7
    fuse_get_reserved_odm := fun i => if i = 4 then 0x400 else 0
    exosphere_get_target_firmware := 5
    mkey_get_revision := 5
    INTERRUPT_ID_USER_SECURITY_ENGINE := 0x2C
    PACKAGE2_MAXVER_400_410 := 0x7
    EXOSPHERE_TARGET_FIRMWARE_300 := 3
    EXOSPHERE_TARGET_FIRMWARE_400 := 4
    EXOSPHERE_TARGET_FIRMWARE_500 := 5
    ATMOSPHERE_RELEASE_VERSION_MAJOR := 1
    ATMOSPHERE_RELEASE_VERSION_MINOR := 2
    ATMOSPHERE_RELEASE_VERSION_MICRO := 3 }

/-- What the three convenience queries do after their call to
`configitem_get`, given the outcome `r` of that call: `generic_panic()`
(`none`) when the returned status is not 0, otherwise the word read back from
the local the call wrote to. -/
def query_after_get (r : GetResult) : Option (Nat × State) :=
  if r.status ≠ 0 then none
  else some (load_u64 r.out, r.state)

/-- One call into the service from outside: the write dispatcher, the
override setter, or the read dispatcher, with its arguments. -/
inductive Call where
  | set (privileged : Bool) (item : ConfigItem) (value : Nat)
  | set_debugmode_override (user priv : Bool)
  | get (privileged : Bool) (item : ConfigItem) (p_outvalue : OutBuf)
  deriving DecidableEq, Repr

/-- The file-scope variables after one call. -/
def Call.next (e : Env) (s : State) : Call → State
  | Call.set privileged item value => (configitem_set s privileged item value).state
  | Call.set_debugmode_override user priv => configitem_set_debugmode_override s user priv
  | Call.get privileged item p_outvalue => (configitem_get e s privileged item p_outvalue).state

/-- The file-scope variables after a sequence of calls, first call first. -/
def run_calls (e : Env) (s : State) : List Call → State
  | [] => s
  | c :: cs => run_calls e (c.next e s) cs

/-- The value argument of the most recent `configitem_set` on
`CONFIGITEM_BATTERYPROFILE` in a sequence of calls, if there is one. -/
def last_battery_write : List Call → Option Nat
  | [] => none
  | c :: cs =>
    match last_battery_write cs with
    | some v => some v
    | none =>
      match c with
      | Call.set _ CONFIGITEM_BATTERYPROFILE v => some v
      | _ => none

/-! ## Unsupported items and the output location -/

/-- C1: for an item identifier that is none of the case labels of the switch,
whatever the privilege, the environment (target firmware included) and the
state, `configitem_get` returns status 2 and hands back the output memory and
the state as it received them. -/
theorem configitem_get_unlisted_is_unsupported (e : Env) (s : State)
    (privileged : Bool) (item : ConfigItem) (p_outvalue : OutBuf)
    (h : item ∉ handledItems) :
    configitem_get e s privileged item p_outvalue = ⟨2, p_outvalue, s⟩ := by
  cases item <;> first
    | rfl
    | exact absurd (by simp [handledItems]) h

/-- C1 at a concrete input: identifier 99 is not a case label. -/
theorem configitem_get_unlisted_is_unsupported_witness :
    unlisted 99 ∉ handledItems ∧
    configitem_get sampleEnv State.boot false (unlisted 99) [7, 8]
      = ⟨2, [7, 8], State.boot⟩ :=
  ⟨by decide,
   configitem_get_unlisted_is_unsupported sampleEnv State.boot false (unlisted 99) [7, 8]
     (by decide)⟩

/-- C2: whenever `configitem_get` returns a non-zero status, the output memory
it hands back is the one it received, for every item (case label or not),
privilege, environment and state; this covers `CONFIGITEM_PACKAGE2HASH_5X`,
whose hash is written only on the success path. -/
theorem configitem_get_failure_leaves_output (e : Env) (s : State)
    (privileged : Bool) (item : ConfigItem) (p_outvalue : OutBuf)
    (h : (configitem_get e s privileged item p_outvalue).status ≠ 0) :
    (configitem_get e s privileged item p_outvalue).out = p_outvalue := by
  cases item <;> simp only [configitem_get] at h ⊢ <;> (try split_ifs at h ⊢) <;>
    first
      | rfl
      | exact absurd rfl h

/-- C2 at a concrete input: the package2 hash asked for outside recovery
boot. -/
theorem configitem_get_failure_leaves_output_witness :
    (configitem_get { sampleEnv with bootconfig_is_recovery_boot := false } State.boot true
        CONFIGITEM_PACKAGE2HASH_5X [9, 9, 9, 9, 9]).status ≠ 0 ∧
    (configitem_get { sampleEnv with bootconfig_is_recovery_boot := false } State.boot true
        CONFIGITEM_PACKAGE2HASH_5X [9, 9, 9, 9, 9]).out = [9, 9, 9, 9, 9] :=
  ⟨by decide,
   configitem_get_failure_leaves_output
     { sampleEnv with bootconfig_is_recovery_boot := false } State.boot true
     CONFIGITEM_PACKAGE2HASH_5X [9, 9, 9, 9, 9] (by decide)⟩

/-! ## The package2 hash -/

/-- C3: `configitem_get` on `CONFIGITEM_PACKAGE2HASH_5X` returns status 0 if and
only if the target firmware is at or above the 500 threshold and the
boot-config recovery flag is true; then the output is what
`bootconfig_get_package2_hash_for_recovery` wrote.  In every other case the
status is 2 (and the output is untouched).  The recovery condition is the one
the recovery-boot item resolves to: the flag is true exactly when
`configitem_get` on `CONFIGITEM_ISRECOVERYBOOT` succeeds with a non-zero
value. -/
theorem configitem_get_package2hash_iff (e : Env) (s : State) (p q : Bool)
    (p_outvalue scratch : OutBuf) :
    ((configitem_get e s p CONFIGITEM_PACKAGE2HASH_5X p_outvalue).status = 0 ↔
      (e.EXOSPHERE_TARGET_FIRMWARE_500 ≤ e.exosphere_get_target_firmware ∧
        e.bootconfig_is_recovery_boot = true)) ∧
    ((e.EXOSPHERE_TARGET_FIRMWARE_500 ≤ e.exosphere_get_target_firmware ∧
        e.bootconfig_is_recovery_boot = true) →
      configitem_get e s p CONFIGITEM_PACKAGE2HASH_5X p_outvalue
        = ⟨0, e.bootconfig_get_package2_hash_for_recovery p_outvalue, s⟩) ∧
    (¬ (e.EXOSPHERE_TARGET_FIRMWARE_500 ≤ e.exosphere_get_target_firmware ∧
        e.bootconfig_is_recovery_boot = true) →
      configitem_get e s p CONFIGITEM_PACKAGE2HASH_5X p_outvalue
        = ⟨2, p_outvalue, s⟩) ∧
    (configitem_get e s q CONFIGITEM_ISRECOVERYBOOT scratch).status = 0 ∧
    (e.bootconfig_is_recovery_boot = true ↔
      load_u64 (configitem_get e s q CONFIGITEM_ISRECOVERYBOOT scratch).out ≠ 0) := by
  refine ⟨?_, ?_, ?_, rfl, ?_⟩
  · simp only [configitem_get]
    split_ifs with h <;> simp_all
  · intro h
    simp only [configitem_get]
    rw [if_pos (by simpa using h)]
  · intro h
    simp only [configitem_get]
    rw [if_neg (by simpa using h)]
  · cases hr : e.bootconfig_is_recovery_boot <;>
      simp [configitem_get, load_u64, store_u64, bool_to_int, hr]

/-- C3 at a concrete input: recovery boot on target firmware 5 (threshold 5);
the first four words of the output are the hash. -/
theorem configitem_get_package2hash_iff_witness :
    (sampleEnv.EXOSPHERE_TARGET_FIRMWARE_500 ≤ sampleEnv.exosphere_get_target_firmware ∧
      sampleEnv.bootconfig_is_recovery_boot = true) ∧
    configitem_get sampleEnv State.boot false CONFIGITEM_PACKAGE2HASH_5X [9, 9, 9, 9, 9]
      = ⟨0, [0xA1, 0xA2, 0xA3, 0xA4, 9], State.boot⟩ :=
  ⟨by decide,
   (configitem_get_package2hash_iff sampleEnv State.boot false true [9, 9, 9, 9, 9] [0]).2.1
     (by decide)⟩

/-! ## The debug-mode item and its overrides -/

/-- C4, as stated, fails: after `configitem_set_debugmode_override(true, false)`
(user = true, priv = false) with the boot-config debug flag clear, the
privileged read of `CONFIGITEM_ISDEBUGMODE` yields 0, not 1, and the
unprivileged read yields 1, not the boot-config value 0. -/
theorem debugmode_override_true_false_counterexample :
    load_u64 (configitem_get sampleEnv
        (configitem_set_debugmode_override State.boot true false) true
        CONFIGITEM_ISDEBUGMODE [9]).out ≠ 1 ∧
    load_u64 (configitem_get sampleEnv
        (configitem_set_debugmode_override State.boot true false) false
        CONFIGITEM_ISDEBUGMODE [9]).out ≠ bool_to_int sampleEnv.bootconfig_is_debug_mode := by
  decide

/-- C4, amended: after `configitem_set_debugmode_override(true, false)`
(user = true, priv = false), from any prior state and for every value of the
boot-config debug flag, the unprivileged read of `CONFIGITEM_ISDEBUGMODE`
succeeds with value 1, and the privileged read succeeds with the boot-config
debug-mode value. -/
theorem debugmode_override_true_false (e : Env) (s : State) (p_outvalue : OutBuf) :
    configitem_get e (configitem_set_debugmode_override s true false) false
        CONFIGITEM_ISDEBUGMODE p_outvalue
      = ⟨0, 1 :: p_outvalue.drop 1, configitem_set_debugmode_override s true false⟩ ∧
    load_u64 (configitem_get e (configitem_set_debugmode_override s true false) false
        CONFIGITEM_ISDEBUGMODE p_outvalue).out = 1 ∧
    configitem_get e (configitem_set_debugmode_override s true false) true
        CONFIGITEM_ISDEBUGMODE p_outvalue
      = ⟨0, bool_to_int e.bootconfig_is_debug_mode :: p_outvalue.drop 1,
          configitem_set_debugmode_override s true false⟩ ∧
    load_u64 (configitem_get e (configitem_set_debugmode_override s true false) true
        CONFIGITEM_ISDEBUGMODE p_outvalue).out = bool_to_int e.bootconfig_is_debug_mode := by
  cases hd : e.bootconfig_is_debug_mode <;>
    simp [configitem_get, configitem_set_debugmode_override, load_u64, store_u64,
      bool_to_int, hd]

/-- C5: `configitem_get` on `CONFIGITEM_ISDEBUGMODE` always returns status 0.
Its value is 1 when the override flag of the caller's own classification is
set (`g_debugmode_override_priv` for a privileged caller,
`g_debugmode_override_user` for an unprivileged one) and the boot-config
debug flag as 0/1 otherwise.  Replacing the override flag of the other
classification (or the battery flag) by any value leaves status and output
the same. -/
theorem configitem_get_isdebugmode (e : Env) (s : State) (privileged : Bool)
    (p_outvalue : OutBuf) :
    (configitem_get e s privileged CONFIGITEM_ISDEBUGMODE p_outvalue).status = 0 ∧
    ((if privileged then s.g_debugmode_override_priv else s.g_debugmode_override_user) = true →
      (configitem_get e s privileged CONFIGITEM_ISDEBUGMODE p_outvalue).out
          = 1 :: p_outvalue.drop 1 ∧
      load_u64 (configitem_get e s privileged CONFIGITEM_ISDEBUGMODE p_outvalue).out = 1) ∧
    ((if privileged then s.g_debugmode_override_priv else s.g_debugmode_override_user) = false →
      (configitem_get e s privileged CONFIGITEM_ISDEBUGMODE p_outvalue).out
          = bool_to_int e.bootconfig_is_debug_mode :: p_outvalue.drop 1 ∧
      load_u64 (configitem_get e s privileged CONFIGITEM_ISDEBUGMODE p_outvalue).out
          = bool_to_int e.bootconfig_is_debug_mode) ∧
    (∀ other battery : Bool,
      (configitem_get e { s with g_debugmode_override_user := other
                                 g_battery_profile := battery } true
          CONFIGITEM_ISDEBUGMODE p_outvalue).status
        = (configitem_get e s true CONFIGITEM_ISDEBUGMODE p_outvalue).status ∧
      (configitem_get e { s with g_debugmode_override_user := other
                                 g_battery_profile := battery } true
          CONFIGITEM_ISDEBUGMODE p_outvalue).out
        = (configitem_get e s true CONFIGITEM_ISDEBUGMODE p_outvalue).out ∧
      (configitem_get e { s with g_debugmode_override_priv := other
                                 g_battery_profile := battery } false
          CONFIGITEM_ISDEBUGMODE p_outvalue).status
        = (configitem_get e s false CONFIGITEM_ISDEBUGMODE p_outvalue).status ∧
      (configitem_get e { s with g_debugmode_override_priv := other
                                 g_battery_profile := battery } false
          CONFIGITEM_ISDEBUGMODE p_outvalue).out
        = (configitem_get e s false CONFIGITEM_ISDEBUGMODE p_outvalue).out) := by
  obtain ⟨bp, ou, op⟩ := s
  cases hd : e.bootconfig_is_debug_mode <;> cases privileged <;> cases ou <;> cases op <;>
    simp [configitem_get, load_u64, store_u64, bool_to_int, hd]

/-- C5 at a concrete input: only the privileged override is set, the
boot-config debug flag is clear; the privileged caller reads 1. -/
theorem configitem_get_isdebugmode_witness :
    (if true then (configitem_set_debugmode_override State.boot false true).g_debugmode_override_priv
      else (configitem_set_debugmode_override State.boot false true).g_debugmode_override_user)
        = true ∧
    (configitem_get sampleEnv (configitem_set_debugmode_override State.boot false true) true
        CONFIGITEM_ISDEBUGMODE [9, 8]).out = [1, 8] ∧
    load_u64 (configitem_get sampleEnv (configitem_set_debugmode_override State.boot false true)
        true CONFIGITEM_ISDEBUGMODE [9, 8]).out = 1 :=
  ⟨by decide,
   (configitem_get_isdebugmode sampleEnv (configitem_set_debugmode_override State.boot false true)
      true [9, 8]).2.1 (by decide)⟩

/-! ## Items gated by the target firmware -/

/-- C6: `configitem_get` on `CONFIGITEM_BOOTREASON` returns status 0 with the
boot-config boot reason as value when the target firmware is strictly below
the 400 threshold (the reason being a 64-bit value), and status 2 with the
output untouched when it is at or above the threshold; the result is the same
for a privileged and an unprivileged caller. -/
theorem configitem_get_bootreason (e : Env) (s : State) (privileged : Bool)
    (p_outvalue : OutBuf) :
    (e.exosphere_get_target_firmware < e.EXOSPHERE_TARGET_FIRMWARE_400 →
      (configitem_get e s privileged CONFIGITEM_BOOTREASON p_outvalue).status = 0 ∧
      (e.bootconfig_get_boot_reason < 2 ^ 64 →
        configitem_get e s privileged CONFIGITEM_BOOTREASON p_outvalue
          = ⟨0, e.bootconfig_get_boot_reason :: p_outvalue.drop 1, s⟩ ∧
        load_u64 (configitem_get e s privileged CONFIGITEM_BOOTREASON p_outvalue).out
          = e.bootconfig_get_boot_reason)) ∧
    (e.EXOSPHERE_TARGET_FIRMWARE_400 ≤ e.exosphere_get_target_firmware →
      configitem_get e s privileged CONFIGITEM_BOOTREASON p_outvalue = ⟨2, p_outvalue, s⟩) ∧
    configitem_get e s true CONFIGITEM_BOOTREASON p_outvalue
      = configitem_get e s false CONFIGITEM_BOOTREASON p_outvalue := by
  refine ⟨fun h => ?_, fun h => ?_, rfl⟩
  · have hg : configitem_get e s privileged CONFIGITEM_BOOTREASON p_outvalue
        = ⟨0, store_u64 p_outvalue e.bootconfig_get_boot_reason, s⟩ := by
      simp only [configitem_get, if_pos h]
    rw [hg]
    refine ⟨rfl, fun hfit => ?_⟩
    unfold store_u64 load_u64
    rw [Nat.mod_eq_of_lt hfit]
    exact ⟨rfl, rfl⟩
  · simp only [configitem_get, if_neg (Nat.not_lt.mpr h)]

/-- C6 at a concrete input: target firmware 3, threshold 4, boot reason
0x11. -/
theorem configitem_get_bootreason_witness :
    ({ sampleEnv with exosphere_get_target_firmware := 3 }).exosphere_get_target_firmware
        < ({ sampleEnv with exosphere_get_target_firmware := 3 }).EXOSPHERE_TARGET_FIRMWARE_400 ∧
    ({ sampleEnv with exosphere_get_target_firmware := 3 }).bootconfig_get_boot_reason < 2 ^ 64 ∧
    configitem_get { sampleEnv with exosphere_get_target_firmware := 3 } State.boot false
        CONFIGITEM_BOOTREASON [9, 8] = ⟨0, [0x11, 8], State.boot⟩ :=
  ⟨by decide, by decide,
   (((configitem_get_bootreason { sampleEnv with exosphere_get_target_firmware := 3 }
      State.boot false [9, 8]).1 (by decide)).2 (by decide)).1⟩

/-- C7: `configitem_get` on `CONFIGITEM_ISQUESTUNIT` returns status 2 below the
300 threshold and otherwise succeeds with `(fuse_get_reserved_odm(4) >> 10) & 1`,
which is 0 or 1; on `CONFIGITEM_NEWHARDWARETYPE_5X` it returns status 2 below
the 500 threshold and otherwise succeeds with 0; on
`CONFIGITEM_NEWKEYGENERATION_5X` it returns status 2 below the 500 threshold
and otherwise succeeds with the fuse reader's 5.x key generation (a 64-bit
value) unchanged.  Failures leave the output untouched. -/
theorem configitem_get_gated_items (e : Env) (s : State) (privileged : Bool)
    (p_outvalue : OutBuf) :
    (e.exosphere_get_target_firmware < e.EXOSPHERE_TARGET_FIRMWARE_300 →
      configitem_get e s privileged CONFIGITEM_ISQUESTUNIT p_outvalue = ⟨2, p_outvalue, s⟩) ∧
    (e.EXOSPHERE_TARGET_FIRMWARE_300 ≤ e.exosphere_get_target_firmware →
      configitem_get e s privileged CONFIGITEM_ISQUESTUNIT p_outvalue
        = ⟨0, ((e.fuse_get_reserved_odm 4 >>> 10) &&& 1) :: p_outvalue.drop 1, s⟩) ∧
    (((e.fuse_get_reserved_odm 4 >>> 10) &&& 1) = 0 ∨
      ((e.fuse_get_reserved_odm 4 >>> 10) &&& 1) = 1) ∧
    (e.exosphere_get_target_firmware < e.EXOSPHERE_TARGET_FIRMWARE_500 →
      configitem_get e s privileged CONFIGITEM_NEWHARDWARETYPE_5X p_outvalue
        = ⟨2, p_outvalue, s⟩) ∧
    (e.EXOSPHERE_TARGET_FIRMWARE_500 ≤ e.exosphere_get_target_firmware →
      configitem_get e s privileged CONFIGITEM_NEWHARDWARETYPE_5X p_outvalue
        = ⟨0, 0 :: p_outvalue.drop 1, s⟩) ∧
    (e.exosphere_get_target_firmware < e.EXOSPHERE_TARGET_FIRMWARE_500 →
      configitem_get e s privileged CONFIGITEM_NEWKEYGENERATION_5X p_outvalue
        = ⟨2, p_outvalue, s⟩) ∧
    (e.EXOSPHERE_TARGET_FIRMWARE_500 ≤ e.exosphere_get_target_firmware →
      (configitem_get e s privileged CONFIGITEM_NEWKEYGENERATION_5X p_outvalue).status = 0 ∧
      (e.fuse_get_5x_key_generation < 2 ^ 64 →
        configitem_get e s privileged CONFIGITEM_NEWKEYGENERATION_5X p_outvalue
          = ⟨0, e.fuse_get_5x_key_generation :: p_outvalue.drop 1, s⟩)) := by
  have hbit : ((e.fuse_get_reserved_odm 4 >>> 10) &&& 1) < 2 := by
    rw [Nat.and_one_is_mod]; omega
  refine ⟨fun h => ?_, fun h => ?_, by omega, fun h => ?_, fun h => ?_, fun h => ?_,
    fun h => ?_⟩
  · simp only [configitem_get, ge_iff_le, if_neg (Nat.not_le.mpr h)]
  · simp only [configitem_get, ge_iff_le, if_pos h, store_u64]
    rw [Nat.mod_eq_of_lt (by omega)]
  · simp only [configitem_get, ge_iff_le, if_neg (Nat.not_le.mpr h)]
  · simp only [configitem_get, ge_iff_le, if_pos h, store_u64]
    rfl
  · simp only [configitem_get, ge_iff_le, if_neg (Nat.not_le.mpr h)]
  · have hg : configitem_get e s privileged CONFIGITEM_NEWKEYGENERATION_5X p_outvalue
        = ⟨0, store_u64 p_outvalue e.fuse_get_5x_key_generation, s⟩ := by
      simp only [configitem_get, ge_iff_le, if_pos h]
    rw [hg]
    refine ⟨rfl, fun hfit => ?_⟩
    simp only [store_u64, Nat.mod_eq_of_lt hfit]

/-- C7 at a concrete input: target firmware 5 (thresholds 3 and 5), reserved
ODM word 4 equal to 0x400, key generation 7. -/
theorem configitem_get_gated_items_witness :
    sampleEnv.EXOSPHERE_TARGET_FIRMWARE_300 ≤ sampleEnv.exosphere_get_target_firmware ∧
    sampleEnv.EXOSPHERE_TARGET_FIRMWARE_500 ≤ sampleEnv.exosphere_get_target_firmware ∧
    sampleEnv.fuse_get_5x_key_generation < 2 ^ 64 ∧
    configitem_get sampleEnv State.boot true CONFIGITEM_ISQUESTUNIT [9, 8]
      = ⟨0, [1, 8], State.boot⟩ ∧
    configitem_get sampleEnv State.boot true CONFIGITEM_NEWHARDWARETYPE_5X [9, 8]
      = ⟨0, [0, 8], State.boot⟩ ∧
    configitem_get sampleEnv State.boot true CONFIGITEM_NEWKEYGENERATION_5X [9, 8]
      = ⟨0, [7, 8], State.boot⟩ :=
  ⟨by decide, by decide, by decide,
   (configitem_get_gated_items sampleEnv State.boot true [9, 8]).2.1 (by decide),
   (configitem_get_gated_items sampleEnv State.boot true [9, 8]).2.2.2.2.1 (by decide),
   ((configitem_get_gated_items sampleEnv State.boot true [9, 8]).2.2.2.2.2.2 (by decide)).2
     (by decide)⟩

/-! ## The write dispatcher -/

/-- C8: for every value `v`, prior state and privilege values `p`, `q`,
`configitem_set(p, CONFIGITEM_BATTERYPROFILE, v)` returns 0 and a following
`configitem_get(q, CONFIGITEM_BATTERYPROFILE)` returns status 0 with value 1
when `v` is non-zero and 0 when `v` is zero.  Of two consecutive writes the
later one determines the state and the value read, and repeating a write
changes nothing. -/
theorem configitem_set_get_batteryprofile (e : Env) (s : State) (p q : Bool) (v : Nat)
    (p_outvalue : OutBuf) :
    (configitem_set s p CONFIGITEM_BATTERYPROFILE v).status = 0 ∧
    configitem_get e (configitem_set s p CONFIGITEM_BATTERYPROFILE v).state q
        CONFIGITEM_BATTERYPROFILE p_outvalue
      = ⟨0, (if v ≠ 0 then 1 else 0) :: p_outvalue.drop 1,
          (configitem_set s p CONFIGITEM_BATTERYPROFILE v).state⟩ ∧
    load_u64 (configitem_get e (configitem_set s p CONFIGITEM_BATTERYPROFILE v).state q
        CONFIGITEM_BATTERYPROFILE p_outvalue).out = (if v ≠ 0 then 1 else 0) ∧
    (∀ (p2 : Bool) (w : Nat),
      (configitem_set (configitem_set s p CONFIGITEM_BATTERYPROFILE v).state p2
          CONFIGITEM_BATTERYPROFILE w).status = 0 ∧
      (configitem_set (configitem_set s p CONFIGITEM_BATTERYPROFILE v).state p2
          CONFIGITEM_BATTERYPROFILE w).state
        = (configitem_set s p2 CONFIGITEM_BATTERYPROFILE w).state ∧
      load_u64 (configitem_get e
          (configitem_set (configitem_set s p CONFIGITEM_BATTERYPROFILE v).state p2
            CONFIGITEM_BATTERYPROFILE w).state q
          CONFIGITEM_BATTERYPROFILE p_outvalue).out = (if w ≠ 0 then 1 else 0)) ∧
    (∀ p2 : Bool,
      configitem_set (configitem_set s p CONFIGITEM_BATTERYPROFILE v).state p2
          CONFIGITEM_BATTERYPROFILE v
        = configitem_set s p CONFIGITEM_BATTERYPROFILE v) := by
  refine ⟨rfl, ?_, ?_, fun p2 w => ⟨rfl, rfl, ?_⟩, fun p2 => rfl⟩
  · by_cases hv : v = 0 <;>
      simp [configitem_get, configitem_set, store_u64, bool_to_int, hv]
  · by_cases hv : v = 0 <;>
      simp [configitem_get, configitem_set, store_u64, load_u64, bool_to_int, hv]
  · by_cases hw : w = 0 <;>
      simp [configitem_get, configitem_set, store_u64, load_u64, bool_to_int, hw]

/-- C9: for every item other than `CONFIGITEM_BATTERYPROFILE` (identifiers
outside the case labels included), every value and privilege,
`configitem_set` returns status 2 and leaves the battery-profile flag and
both debug-mode override flags as they were. -/
theorem configitem_set_other_item_unsupported (s : State) (privileged : Bool)
    (item : ConfigItem) (value : Nat) (h : item ≠ CONFIGITEM_BATTERYPROFILE) :
    configitem_set s privileged item value = ⟨2, s⟩ ∧
    (configitem_set s privileged item value).state.g_battery_profile
      = s.g_battery_profile ∧
    (configitem_set s privileged item value).state.g_debugmode_override_user
      = s.g_debugmode_override_user ∧
    (configitem_set s privileged item value).state.g_debugmode_override_priv
      = s.g_debugmode_override_priv := by
  have hs : configitem_set s privileged item value = ⟨2, s⟩ := by
    unfold configitem_set
    rw [if_pos h]
  rw [hs]
  exact ⟨rfl, rfl, rfl, rfl⟩

/-- C9 at a concrete input: a privileged write of 1 to `CONFIGITEM_ISDEBUGMODE`
in a state whose user override is set. -/
theorem configitem_set_other_item_unsupported_witness :
    CONFIGITEM_ISDEBUGMODE ≠ CONFIGITEM_BATTERYPROFILE ∧
    configitem_set (configitem_set_debugmode_override State.boot true false) true
        CONFIGITEM_ISDEBUGMODE 1
      = ⟨2, ⟨false, true, false⟩⟩ :=
  ⟨by decide,
   (configitem_set_other_item_unsupported
      (configitem_set_debugmode_override State.boot true false) true
      CONFIGITEM_ISDEBUGMODE 1 (by decide)).1⟩

/-! ## The composite version word -/

/-- The mask `& 0xFF` keeps the value modulo 256. -/
theorem and_ff_eq_mod (x : Nat) : x &&& 0xFF = x % 256 :=
  Nat.and_pow_two_sub_one_eq_mod x 8

/-- Below bit `i`, or-ing into a value shifted left by `i` is an addition. -/
theorem shiftLeft_or_eq_add (hi lo i : Nat) (h : lo < 2 ^ i) :
    (hi <<< i) ||| lo = hi * 2 ^ i + lo := by
  rw [Nat.shiftLeft_eq, Nat.mul_comm, ← Nat.mul_add_lt_is_or h]

/-- Five bytes or-ed at byte offsets 4, 3, 2, 1, 0 do not overlap. -/
theorem pack_bytes_eq_sum (a b c d x : Nat) (hb : b < 256) (hc : c < 256)
    (hd : d < 256) (hx : x < 256) :
    (a <<< 32) ||| (b <<< 24) ||| (c <<< 16) ||| (d <<< 8) ||| (x <<< 0)
      = a * 2 ^ 32 + b * 2 ^ 24 + c * 2 ^ 16 + d * 2 ^ 8 + x := by
  have h0 : (d <<< 8) ||| x = d * 2 ^ 8 + x := shiftLeft_or_eq_add d x 8 (by omega)
  have h1 : (c <<< 16) ||| (d * 2 ^ 8 + x) = c * 2 ^ 16 + (d * 2 ^ 8 + x) :=
    shiftLeft_or_eq_add c _ 16 (by omega)
  have h2 : (b <<< 24) ||| (c * 2 ^ 16 + (d * 2 ^ 8 + x))
      = b * 2 ^ 24 + (c * 2 ^ 16 + (d * 2 ^ 8 + x)) :=
    shiftLeft_or_eq_add b _ 24 (by omega)
  have h3 : (a <<< 32) ||| (b * 2 ^ 24 + (c * 2 ^ 16 + (d * 2 ^ 8 + x)))
      = a * 2 ^ 32 + (b * 2 ^ 24 + (c * 2 ^ 16 + (d * 2 ^ 8 + x))) :=
    shiftLeft_or_eq_add a _ 32 (by omega)
  rw [Nat.shiftLeft_zero, Nat.or_assoc, Nat.or_assoc, Nat.or_assoc, h0, h1, h2, h3]
  omega

/-- The version word as a sum of its five bytes. -/
theorem exosphere_version_word_eq_sum (e : Env) :
    exosphere_version_word e
      = e.ATMOSPHERE_RELEASE_VERSION_MAJOR % 256 * 2 ^ 32
        + e.ATMOSPHERE_RELEASE_VERSION_MINOR % 256 * 2 ^ 24
        + e.ATMOSPHERE_RELEASE_VERSION_MICRO % 256 * 2 ^ 16
        + e.exosphere_get_target_firmware % 256 * 2 ^ 8
        + e.mkey_get_revision % 256 := by
  unfold exosphere_version_word
  simp only [and_ff_eq_mod]
  exact pack_bytes_eq_sum _ _ _ _ _ (Nat.mod_lt _ (by decide)) (Nat.mod_lt _ (by decide))
    (Nat.mod_lt _ (by decide)) (Nat.mod_lt _ (by decide))

/-- C10: for all values of release major, minor, micro, target firmware and
master-key revision, `configitem_get` on `CONFIGITEM_EXOSPHERE_VERSION`
succeeds and stores
`((major mod 256) << 32) | ((minor mod 256) << 24) | ((micro mod 256) << 16) |
((target firmware mod 256) << 8) | (master-key revision mod 256)`.  The word
is below `2 ^ 40`, and its bytes 4, 3, 2, 1, 0 are the five fields modulo 256.
For major 1, minor 2, micro 3, target firmware 0x40 and revision 5 the word
is `(1<<32)|(2<<24)|(3<<16)|(0x40<<8)|5`. -/
theorem configitem_get_exosphere_version (e : Env) (s : State) (privileged : Bool)
    (p_outvalue : OutBuf) :
    configitem_get e s privileged CONFIGITEM_EXOSPHERE_VERSION p_outvalue
      = ⟨0, exosphere_version_word e :: p_outvalue.drop 1, s⟩ ∧
    exosphere_version_word e
      = (((e.ATMOSPHERE_RELEASE_VERSION_MAJOR % 256) <<< 32) |||
         ((e.ATMOSPHERE_RELEASE_VERSION_MINOR % 256) <<< 24) |||
         ((e.ATMOSPHERE_RELEASE_VERSION_MICRO % 256) <<< 16) |||
         ((e.exosphere_get_target_firmware % 256) <<< 8) |||
         (e.mkey_get_revision % 256)) ∧
    exosphere_version_word e < 2 ^ 40 ∧
    (exosphere_version_word e >>> 32) &&& 0xFF = e.ATMOSPHERE_RELEASE_VERSION_MAJOR % 256 ∧
    (exosphere_version_word e >>> 24) &&& 0xFF = e.ATMOSPHERE_RELEASE_VERSION_MINOR % 256 ∧
    (exosphere_version_word e >>> 16) &&& 0xFF = e.ATMOSPHERE_RELEASE_VERSION_MICRO % 256 ∧
    (exosphere_version_word e >>> 8) &&& 0xFF = e.exosphere_get_target_firmware % 256 ∧
    (exosphere_version_word e >>> 0) &&& 0xFF = e.mkey_get_revision % 256 ∧
    (e.ATMOSPHERE_RELEASE_VERSION_MAJOR = 1 → e.ATMOSPHERE_RELEASE_VERSION_MINOR = 2 →
      e.ATMOSPHERE_RELEASE_VERSION_MICRO = 3 → e.exosphere_get_target_firmware = 0x40 →
      e.mkey_get_revision = 5 →
      exosphere_version_word e
        = ((1 <<< 32) ||| (2 <<< 24) ||| (3 <<< 16) ||| (0x40 <<< 8) ||| 5)) := by
  have hsum := exosphere_version_word_eq_sum e
  have ha : e.ATMOSPHERE_RELEASE_VERSION_MAJOR % 256 < 256 := Nat.mod_lt _ (by decide)
  have hb : e.ATMOSPHERE_RELEASE_VERSION_MINOR % 256 < 256 := Nat.mod_lt _ (by decide)
  have hc : e.ATMOSPHERE_RELEASE_VERSION_MICRO % 256 < 256 := Nat.mod_lt _ (by decide)
  have hd : e.exosphere_get_target_firmware % 256 < 256 := Nat.mod_lt _ (by decide)
  have hx : e.mkey_get_revision % 256 < 256 := Nat.mod_lt _ (by decide)
  have hlt : exosphere_version_word e < 2 ^ 40 := by
    rw [hsum]; omega
  refine ⟨?_, ?_, hlt, ?_, ?_, ?_, ?_, ?_, ?_⟩
  · simp only [configitem_get, store_u64]
    rw [Nat.mod_eq_of_lt (by omega)]
  · unfold exosphere_version_word
    simp only [and_ff_eq_mod, Nat.shiftLeft_zero]
  · rw [and_ff_eq_mod, Nat.shiftRight_eq_div_pow, hsum]; omega
  · rw [and_ff_eq_mod, Nat.shiftRight_eq_div_pow, hsum]; omega
  · rw [and_ff_eq_mod, Nat.shiftRight_eq_div_pow, hsum]; omega
  · rw [and_ff_eq_mod, Nat.shiftRight_eq_div_pow, hsum]; omega
  · rw [and_ff_eq_mod, Nat.shiftRight_eq_div_pow, hsum]; omega
  · intro h1 h2 h3 h4 h5
    rw [hsum, h1, h2, h3, h4, h5]
    decide

/-- C10 at a concrete input: release 1.2.3 on target firmware 0x40 with
master-key revision 5. -/
theorem configitem_get_exosphere_version_witness :
    exosphere_version_word { sampleEnv with exosphere_get_target_firmware := 0x40 }
      = ((1 <<< 32) ||| (2 <<< 24) ||| (3 <<< 16) ||| (0x40 <<< 8) ||| 5) ∧
    (configitem_get { sampleEnv with exosphere_get_target_firmware := 0x40 } State.boot false
        CONFIGITEM_EXOSPHERE_VERSION [9, 8]) = ⟨0, [4328734725, 8], State.boot⟩ :=
  ⟨(configitem_get_exosphere_version { sampleEnv with exosphere_get_target_firmware := 0x40 }
      State.boot false [9, 8]).2.2.2.2.2.2.2.2 rfl rfl rfl rfl rfl,
   (configitem_get_exosphere_version { sampleEnv with exosphere_get_target_firmware := 0x40 }
      State.boot false [9, 8]).1⟩

/-! ## The privileged convenience queries -/

/-- C11: each convenience query (`configitem_is_recovery_boot`,
`configitem_is_retail`, `configitem_get_hardware_type`) calls `configitem_get`
with `privileged = true` on its item and then halts (`none`) if and only if
that call returned a non-zero status; on status 0 it returns the fetched word
(as `word != 0` for the two boolean queries, unchanged for the hardware type).
The part after the call, `query_after_get`, halts on every outcome with a
non-zero status and returns a value on none of them. -/
theorem convenience_queries_halt_iff (e : Env) (s : State) (local_init : Nat) :
    configitem_is_recovery_boot e s local_init
      = (query_after_get
          (configitem_get e s true CONFIGITEM_ISRECOVERYBOOT [local_init])).map
          (fun r => (r.1 != 0, r.2)) ∧
    configitem_is_retail e s local_init
      = (query_after_get
          (configitem_get e s true CONFIGITEM_ISRETAIL [local_init])).map
          (fun r => (r.1 != 0, r.2)) ∧
    configitem_get_hardware_type e s local_init
      = query_after_get (configitem_get e s true CONFIGITEM_HARDWARETYPE [local_init]) ∧
    (∀ r : GetResult, query_after_get r = none ↔ r.status ≠ 0) ∧
    (∀ r : GetResult, r.status = 0 → query_after_get r = some (load_u64 r.out, r.state)) ∧
    (configitem_is_recovery_boot e s local_init = none ↔
      (configitem_get e s true CONFIGITEM_ISRECOVERYBOOT [local_init]).status ≠ 0) ∧
    (configitem_is_retail e s local_init = none ↔
      (configitem_get e s true CONFIGITEM_ISRETAIL [local_init]).status ≠ 0) ∧
    (configitem_get_hardware_type e s local_init = none ↔
      (configitem_get e s true CONFIGITEM_HARDWARETYPE [local_init]).status ≠ 0) := by
  have hnone : ∀ r : GetResult, query_after_get r = none ↔ r.status ≠ 0 := by
    intro r
    unfold query_after_get
    by_cases h : r.status = 0 <;> simp [h]
  have hsome : ∀ r : GetResult, r.status = 0 →
      query_after_get r = some (load_u64 r.out, r.state) := by
    intro r h
    unfold query_after_get
    simp [h]
  have h1 : configitem_is_recovery_boot e s local_init
      = (query_after_get
          (configitem_get e s true CONFIGITEM_ISRECOVERYBOOT [local_init])).map
          (fun r => (r.1 != 0, r.2)) := by
    unfold configitem_is_recovery_boot query_after_get
    by_cases h : (configitem_get e s true CONFIGITEM_ISRECOVERYBOOT [local_init]).status = 0 <;>
      simp [h]
  have h2 : configitem_is_retail e s local_init
      = (query_after_get
          (configitem_get e s true CONFIGITEM_ISRETAIL [local_init])).map
          (fun r => (r.1 != 0, r.2)) := by
    unfold configitem_is_retail query_after_get
    by_cases h : (configitem_get e s true CONFIGITEM_ISRETAIL [local_init]).status = 0 <;>
      simp [h]
  have h3 : configitem_get_hardware_type e s local_init
      = query_after_get (configitem_get e s true CONFIGITEM_HARDWARETYPE [local_init]) := rfl
  refine ⟨h1, h2, h3, hnone, hsome, ?_, ?_, ?_⟩
  · rw [h1, Option.map_eq_none', hnone]
  · rw [h2, Option.map_eq_none', hnone]
  · rw [h3, hnone]

/-- C11 at concrete inputs: an outcome with status 2 makes the part after the
call halt, and the recovery-boot query on a recovery boot returns `true`. -/
theorem convenience_queries_halt_iff_witness :
    query_after_get ⟨2, [7], State.boot⟩ = none ∧
    query_after_get ⟨0, [7], State.boot⟩ = some (7, State.boot) ∧
    configitem_is_recovery_boot sampleEnv State.boot 7 = some (true, State.boot) :=
  ⟨((convenience_queries_halt_iff sampleEnv State.boot 7).2.2.2.1 ⟨2, [7], State.boot⟩).mpr
      (by decide),
   (convenience_queries_halt_iff sampleEnv State.boot 7).2.2.2.2.1 ⟨0, [7], State.boot⟩ rfl,
   (convenience_queries_halt_iff sampleEnv State.boot 7).1⟩

/-- C12: for every state, environment (target firmware included) and prior
content of the output, `configitem_get(true, item)` returns status 0 for
`CONFIGITEM_ISRECOVERYBOOT`, `CONFIGITEM_ISRETAIL` and
`CONFIGITEM_HARDWARETYPE`.  Hence none of the three convenience queries
halts, and they return the boot-config recovery flag, `fuse retail type != 0`
and the fuse hardware type (the two fuse results being 64-bit values), with
the state as it was. -/
theorem convenience_queries_never_halt (e : Env) (s : State) (local_init : Nat) :
    (∀ p_outvalue : OutBuf,
      (configitem_get e s true CONFIGITEM_ISRECOVERYBOOT p_outvalue).status = 0 ∧
      (configitem_get e s true CONFIGITEM_ISRETAIL p_outvalue).status = 0 ∧
      (configitem_get e s true CONFIGITEM_HARDWARETYPE p_outvalue).status = 0) ∧
    configitem_is_recovery_boot e s local_init ≠ none ∧
    configitem_is_retail e s local_init ≠ none ∧
    configitem_get_hardware_type e s local_init ≠ none ∧
    configitem_is_recovery_boot e s local_init = some (e.bootconfig_is_recovery_boot, s) ∧
    (e.fuse_get_retail_type < 2 ^ 64 →
      configitem_is_retail e s local_init = some (e.fuse_get_retail_type != 0, s)) ∧
    (e.fuse_get_hardware_type < 2 ^ 64 →
      configitem_get_hardware_type e s local_init = some (e.fuse_get_hardware_type, s)) := by
  refine ⟨fun _ => ⟨rfl, rfl, rfl⟩, ?_, ?_, ?_, ?_, fun h => ?_, fun h => ?_⟩
  · simp [configitem_is_recovery_boot, configitem_get]
  · simp [configitem_is_retail, configitem_get]
  · simp [configitem_get_hardware_type, configitem_get]
  · cases hr : e.bootconfig_is_recovery_boot <;>
      simp [configitem_is_recovery_boot, configitem_get, load_u64, store_u64, bool_to_int, hr]
  · have hg : (configitem_get e s true CONFIGITEM_ISRETAIL [local_init])
        = ⟨0, [e.fuse_get_retail_type], s⟩ := by
      simp only [configitem_get, store_u64, Nat.mod_eq_of_lt h]
      rfl
    unfold configitem_is_retail
    rw [hg]
    rfl
  · have hg : (configitem_get e s true CONFIGITEM_HARDWARETYPE [local_init])
        = ⟨0, [e.fuse_get_hardware_type], s⟩ := by
      simp only [configitem_get, store_u64, Nat.mod_eq_of_lt h]
      rfl
    unfold configitem_get_hardware_type
    rw [hg]
    rfl

/-- C12 at a concrete input: a retail unit (retail type 1, hardware type 1). -/
theorem convenience_queries_never_halt_witness :
    sampleEnv.fuse_get_retail_type < 2 ^ 64 ∧
    sampleEnv.fuse_get_hardware_type < 2 ^ 64 ∧
    configitem_is_retail sampleEnv State.boot 7 = some (true, State.boot) ∧
    configitem_get_hardware_type sampleEnv State.boot 7 = some (1, State.boot) :=
  ⟨by decide, by decide,
   (convenience_queries_never_halt sampleEnv State.boot 7).2.2.2.2.2.1 (by decide),
   (convenience_queries_never_halt sampleEnv State.boot 7).2.2.2.2.2.2 (by decide)⟩

/-! ## Items that are always available -/

/-- A store of a value that fits in 64 bits puts that value in word 0. -/
theorem store_u64_of_lt (p_outvalue : OutBuf) (v : Nat) (h : v < 2 ^ 64) :
    store_u64 p_outvalue v = v :: p_outvalue.drop 1 := by
  unfold store_u64
  rw [Nat.mod_eq_of_lt h]

/-- A converted `bool` is 0 or 1, so it is stored as it is. -/
theorem store_u64_bool_to_int (p_outvalue : OutBuf) (b : Bool) :
    store_u64 p_outvalue (bool_to_int b) = bool_to_int b :: p_outvalue.drop 1 := by
  cases b <;> rfl

/-- C13: for every target firmware, privilege and state, `configitem_get`
returns status 0 on the un-gated sourced items and stores the provider's
value: the fuse reader's value for `CONFIGITEM_DRAMID`,
`CONFIGITEM_HARDWARETYPE`, `CONFIGITEM_ISRETAIL` and `CONFIGITEM_DEVICEID`,
the boot-config boolean as 0/1 for `CONFIGITEM_DISABLEPROGRAMVERIFICATION` and
`CONFIGITEM_ISRECOVERYBOOT`, and the boot-config value for
`CONFIGITEM_MEMORYARRANGE` and `CONFIGITEM_KERNELMEMORYCONFIGURATION` (numeric
provider values being 64-bit values).  Status and output are the same in any
other state, so they do not depend on the battery-profile or override
flags. -/
theorem configitem_get_ungated_sourced_items (e : Env) (s : State) (privileged : Bool)
    (p_outvalue : OutBuf) :
    (∀ item ∈ [CONFIGITEM_DRAMID, CONFIGITEM_HARDWARETYPE, CONFIGITEM_ISRETAIL,
        CONFIGITEM_DEVICEID, CONFIGITEM_DISABLEPROGRAMVERIFICATION,
        CONFIGITEM_ISRECOVERYBOOT, CONFIGITEM_MEMORYARRANGE,
        CONFIGITEM_KERNELMEMORYCONFIGURATION],
      (configitem_get e s privileged item p_outvalue).status = 0 ∧
      ∀ (s2 : State) (p2 : Bool),
        (configitem_get e s2 p2 item p_outvalue).status
          = (configitem_get e s privileged item p_outvalue).status ∧
        (configitem_get e s2 p2 item p_outvalue).out
          = (configitem_get e s privileged item p_outvalue).out) ∧
    (e.fuse_get_dram_id < 2 ^ 64 →
      configitem_get e s privileged CONFIGITEM_DRAMID p_outvalue
        = ⟨0, e.fuse_get_dram_id :: p_outvalue.drop 1, s⟩) ∧
    (e.fuse_get_hardware_type < 2 ^ 64 →
      configitem_get e s privileged CONFIGITEM_HARDWARETYPE p_outvalue
        = ⟨0, e.fuse_get_hardware_type :: p_outvalue.drop 1, s⟩) ∧
    (e.fuse_get_retail_type < 2 ^ 64 →
      configitem_get e s privileged CONFIGITEM_ISRETAIL p_outvalue
        = ⟨0, e.fuse_get_retail_type :: p_outvalue.drop 1, s⟩) ∧
    (e.fuse_get_device_id < 2 ^ 64 →
      configitem_get e s privileged CONFIGITEM_DEVICEID p_outvalue
        = ⟨0, e.fuse_get_device_id :: p_outvalue.drop 1, s⟩) ∧
    configitem_get e s privileged CONFIGITEM_DISABLEPROGRAMVERIFICATION p_outvalue
      = ⟨0, bool_to_int e.bootconfig_disable_program_verification :: p_outvalue.drop 1, s⟩ ∧
    configitem_get e s privileged CONFIGITEM_ISRECOVERYBOOT p_outvalue
      = ⟨0, bool_to_int e.bootconfig_is_recovery_boot :: p_outvalue.drop 1, s⟩ ∧
    (e.bootconfig_get_memory_arrangement < 2 ^ 64 →
      configitem_get e s privileged CONFIGITEM_MEMORYARRANGE p_outvalue
        = ⟨0, e.bootconfig_get_memory_arrangement :: p_outvalue.drop 1, s⟩) ∧
    (e.bootconfig_get_kernel_memory_configuration < 2 ^ 64 →
      configitem_get e s privileged CONFIGITEM_KERNELMEMORYCONFIGURATION p_outvalue
        = ⟨0, e.bootconfig_get_kernel_memory_configuration :: p_outvalue.drop 1, s⟩) := by
  refine ⟨?_, fun h => ?_, fun h => ?_, fun h => ?_, fun h => ?_, ?_, ?_, fun h => ?_,
    fun h => ?_⟩
  · intro item hi
    simp only [List.mem_cons, List.mem_singleton, List.not_mem_nil, or_false] at hi
    rcases hi with rfl | rfl | rfl | rfl | rfl | rfl | rfl | rfl <;>
      exact ⟨rfl, fun _ _ => ⟨rfl, rfl⟩⟩
  · simp only [configitem_get, store_u64_of_lt _ _ h]
  · simp only [configitem_get, store_u64_of_lt _ _ h]
  · simp only [configitem_get, store_u64_of_lt _ _ h]
  · simp only [configitem_get, store_u64_of_lt _ _ h]
  · simp only [configitem_get, store_u64_bool_to_int]
  · simp only [configitem_get, store_u64_bool_to_int]
  · simp only [configitem_get, store_u64_of_lt _ _ h]
  · simp only [configitem_get, store_u64_of_lt _ _ h]

/-- C13 at a concrete input: device id 0x1234 and kernel memory configuration
0x1000, read in a state with all three flags set. -/
theorem configitem_get_ungated_sourced_items_witness :
    sampleEnv.fuse_get_device_id < 2 ^ 64 ∧
    sampleEnv.bootconfig_get_kernel_memory_configuration < 2 ^ 64 ∧
    configitem_get sampleEnv ⟨true, true, true⟩ false CONFIGITEM_DEVICEID [9, 8]
      = ⟨0, [0x1234, 8], ⟨true, true, true⟩⟩ ∧
    configitem_get sampleEnv ⟨true, true, true⟩ false CONFIGITEM_KERNELMEMORYCONFIGURATION [9, 8]
      = ⟨0, [0x1000, 8], ⟨true, true, true⟩⟩ :=
  ⟨by decide, by decide,
   (configitem_get_ungated_sourced_items sampleEnv ⟨true, true, true⟩ false [9, 8]).2.2.2.2.1
     (by decide),
   (configitem_get_ungated_sourced_items sampleEnv ⟨true, true, true⟩ false
     [9, 8]).2.2.2.2.2.2.2.2 (by decide)⟩

/-! ## Frame conditions -/

/-- C14: `configitem_get` leaves the battery-profile flag and both override
flags as they were, for every item, privilege, environment and state, whether
it succeeds or fails.  Consequently a second call with the same arguments
returns the same status and value: on the same prior output content the whole
result is equal, and on the memory the first call left behind the status is
equal and so is the output (for the package2 hash provided the collaborator
writes the same words when it writes twice). -/
theorem configitem_get_keeps_state (e : Env) (s : State) (privileged : Bool)
    (item : ConfigItem) (p_outvalue : OutBuf) :
    (configitem_get e s privileged item p_outvalue).state = s ∧
    (configitem_get e s privileged item p_outvalue).state.g_battery_profile
      = s.g_battery_profile ∧
    (configitem_get e s privileged item p_outvalue).state.g_debugmode_override_user
      = s.g_debugmode_override_user ∧
    (configitem_get e s privileged item p_outvalue).state.g_debugmode_override_priv
      = s.g_debugmode_override_priv ∧
    configitem_get e (configitem_get e s privileged item p_outvalue).state privileged item
        p_outvalue
      = configitem_get e s privileged item p_outvalue ∧
    (configitem_get e (configitem_get e s privileged item p_outvalue).state privileged item
        (configitem_get e s privileged item p_outvalue).out).status
      = (configitem_get e s privileged item p_outvalue).status ∧
    (item ≠ CONFIGITEM_PACKAGE2HASH_5X →
      (configitem_get e (configitem_get e s privileged item p_outvalue).state privileged item
          (configitem_get e s privileged item p_outvalue).out).out
        = (configitem_get e s privileged item p_outvalue).out) ∧
    (e.bootconfig_get_package2_hash_for_recovery
        (e.bootconfig_get_package2_hash_for_recovery p_outvalue)
      = e.bootconfig_get_package2_hash_for_recovery p_outvalue →
      (configitem_get e (configitem_get e s privileged item p_outvalue).state privileged item
          (configitem_get e s privileged item p_outvalue).out).out
        = (configitem_get e s privileged item p_outvalue).out) := by
  have hs : (configitem_get e s privileged item p_outvalue).state = s := by
    cases item <;> simp only [configitem_get] <;> (try split_ifs) <;> rfl
  have hstore : ∀ (o : OutBuf) (v : Nat), store_u64 (store_u64 o v) v = store_u64 o v := by
    intro o v
    simp [store_u64]
  rw [hs]
  refine ⟨rfl, rfl, rfl, rfl, rfl, ?_, fun hne => ?_, fun hh => ?_⟩
  · cases item <;> simp only [configitem_get] <;> (try split_ifs) <;> rfl
  · cases item <;> simp only [configitem_get] <;> (try split_ifs) <;>
      first
        | rfl
        | exact hstore _ _
        | exact absurd rfl hne
  · cases item <;> simp only [configitem_get] <;> (try split_ifs) <;>
      first
        | rfl
        | exact hstore _ _
        | exact hh

/-- C14 at a concrete input: the package2 hash read twice into the same
five-word buffer. -/
theorem configitem_get_keeps_state_witness :
    sampleEnv.bootconfig_get_package2_hash_for_recovery
        (sampleEnv.bootconfig_get_package2_hash_for_recovery [9, 9, 9, 9, 9])
      = sampleEnv.bootconfig_get_package2_hash_for_recovery [9, 9, 9, 9, 9] ∧
    (configitem_get sampleEnv
        (configitem_get sampleEnv ⟨true, false, true⟩ false CONFIGITEM_PACKAGE2HASH_5X
          [9, 9, 9, 9, 9]).state false CONFIGITEM_PACKAGE2HASH_5X
        (configitem_get sampleEnv ⟨true, false, true⟩ false CONFIGITEM_PACKAGE2HASH_5X
          [9, 9, 9, 9, 9]).out).out
      = [0xA1, 0xA2, 0xA3, 0xA4, 9] :=
  ⟨by decide,
   (configitem_get_keeps_state sampleEnv ⟨true, false, true⟩ false CONFIGITEM_PACKAGE2HASH_5X
     [9, 9, 9, 9, 9]).2.2.2.2.2.2.2 (by decide)⟩

/-- C15: `configitem_set` ignores its privilege argument: for every item,
value and prior state the privileged and the unprivileged call return the
same status and leave the same state.  In particular an unprivileged write to
`CONFIGITEM_BATTERYPROFILE` succeeds and sets the flag to `value != 0`, so an
unprivileged caller can turn the flag on. -/
theorem configitem_set_ignores_privilege (s : State) (item : ConfigItem) (value : Nat) :
    configitem_set s true item value = configitem_set s false item value ∧
    (configitem_set s true item value).status = (configitem_set s false item value).status ∧
    (configitem_set s true item value).state = (configitem_set s false item value).state ∧
    (configitem_set s false CONFIGITEM_BATTERYPROFILE value).status = 0 ∧
    (configitem_set s false CONFIGITEM_BATTERYPROFILE value).state.g_battery_profile
      = (value != 0) ∧
    configitem_should_profile_battery
      (configitem_set s false CONFIGITEM_BATTERYPROFILE 1).state = true :=
  ⟨rfl, rfl, rfl, rfl, rfl, rfl⟩

/-- The read dispatcher hands back the file-scope variables it received. -/
theorem configitem_get_state_eq (e : Env) (s : State) (privileged : Bool)
    (item : ConfigItem) (p_outvalue : OutBuf) :
    (configitem_get e s privileged item p_outvalue).state = s := by
  cases item <;> simp only [configitem_get] <;> (try split_ifs) <;> rfl

/-- The write dispatcher never touches the two override flags. -/
theorem configitem_set_overrides_eq (s : State) (privileged : Bool) (item : ConfigItem)
    (value : Nat) :
    (configitem_set s privileged item value).state.g_debugmode_override_user
      = s.g_debugmode_override_user ∧
    (configitem_set s privileged item value).state.g_debugmode_override_priv
      = s.g_debugmode_override_priv := by
  unfold configitem_set
  split_ifs <;> exact ⟨rfl, rfl⟩

/-- C16: `configitem_set_debugmode_override(user, priv)` is total and, from
every prior state, leaves `g_debugmode_override_user = user`,
`g_debugmode_override_priv = priv` and the battery-profile flag unchanged.  A
later call fully replaces an earlier one, also when it clears a flag that was
set.  No other operation changes either override flag: not `configitem_set`,
not `configitem_get`, and none of the convenience queries (which return with
the state as it was). -/
theorem configitem_set_debugmode_override_frame (e : Env) (s : State) (user priv : Bool) :
    (configitem_set_debugmode_override s user priv).g_debugmode_override_user = user ∧
    (configitem_set_debugmode_override s user priv).g_debugmode_override_priv = priv ∧
    (configitem_set_debugmode_override s user priv).g_battery_profile
      = s.g_battery_profile ∧
    (∀ user2 priv2 : Bool,
      configitem_set_debugmode_override (configitem_set_debugmode_override s user priv)
          user2 priv2
        = configitem_set_debugmode_override s user2 priv2) ∧
    configitem_set_debugmode_override (configitem_set_debugmode_override s true true)
        false false
      = ⟨s.g_battery_profile, false, false⟩ ∧
    (∀ (privileged : Bool) (item : ConfigItem) (value : Nat),
      (configitem_set s privileged item value).state.g_debugmode_override_user
        = s.g_debugmode_override_user ∧
      (configitem_set s privileged item value).state.g_debugmode_override_priv
        = s.g_debugmode_override_priv) ∧
    (∀ (privileged : Bool) (item : ConfigItem) (p_outvalue : OutBuf),
      (configitem_get e s privileged item p_outvalue).state.g_debugmode_override_user
        = s.g_debugmode_override_user ∧
      (configitem_get e s privileged item p_outvalue).state.g_debugmode_override_priv
        = s.g_debugmode_override_priv) ∧
    (∀ local_init : Nat,
      (configitem_is_recovery_boot e s local_init).map Prod.snd = some s ∧
      (configitem_is_retail e s local_init).map Prod.snd = some s ∧
      (configitem_get_hardware_type e s local_init).map Prod.snd = some s) := by
  refine ⟨rfl, rfl, rfl, fun _ _ => rfl, rfl, fun p item v => ?_, fun p item out => ?_,
    fun li => ⟨?_, ?_, ?_⟩⟩
  · exact configitem_set_overrides_eq s p item v
  · rw [configitem_get_state_eq]
    exact ⟨rfl, rfl⟩
  · simp [configitem_is_recovery_boot, configitem_get]
  · simp [configitem_is_retail, configitem_get]
  · simp [configitem_get_hardware_type, configitem_get]

/-! ## Status codes -/

/-- C17: the status returned by `configitem_get` and by `configitem_set` is
either 0 or 2, for every input and state.  An unknown item, an item below its
firmware threshold (or `CONFIGITEM_BOOTREASON` at or above the 400 threshold)
and `CONFIGITEM_PACKAGE2HASH_5X` outside recovery boot all yield the same
status 2. -/
theorem status_is_zero_or_two (e : Env) (s : State) (privileged : Bool)
    (item : ConfigItem) (p_outvalue : OutBuf) (value : Nat) :
    ((configitem_get e s privileged item p_outvalue).status = 0 ∨
      (configitem_get e s privileged item p_outvalue).status = 2) ∧
    ((configitem_set s privileged item value).status = 0 ∨
      (configitem_set s privileged item value).status = 2) ∧
    (∀ raw : Nat, (configitem_get e s privileged (unlisted raw) p_outvalue).status = 2) ∧
    (e.exosphere_get_target_firmware < e.EXOSPHERE_TARGET_FIRMWARE_300 →
      (configitem_get e s privileged CONFIGITEM_ISQUESTUNIT p_outvalue).status = 2) ∧
    (e.exosphere_get_target_firmware < e.EXOSPHERE_TARGET_FIRMWARE_500 →
      (configitem_get e s privileged CONFIGITEM_NEWHARDWARETYPE_5X p_outvalue).status = 2 ∧
      (configitem_get e s privileged CONFIGITEM_NEWKEYGENERATION_5X p_outvalue).status = 2 ∧
      (configitem_get e s privileged CONFIGITEM_PACKAGE2HASH_5X p_outvalue).status = 2) ∧
    (e.EXOSPHERE_TARGET_FIRMWARE_400 ≤ e.exosphere_get_target_firmware →
      (configitem_get e s privileged CONFIGITEM_BOOTREASON p_outvalue).status = 2) ∧
    (e.bootconfig_is_recovery_boot = false →
      (configitem_get e s privileged CONFIGITEM_PACKAGE2HASH_5X p_outvalue).status = 2) := by
  refine ⟨?_, ?_, fun _ => rfl, fun h => ?_, fun h => ⟨?_, ?_, ?_⟩, fun h => ?_, fun h => ?_⟩
  · cases item <;> simp only [configitem_get] <;> (try split_ifs) <;>
      first
        | exact Or.inl trivial
        | exact Or.inl rfl
        | exact Or.inr trivial
        | exact Or.inr rfl
  · unfold configitem_set
    split_ifs
    · exact Or.inr rfl
    · exact Or.inl rfl
  · simp only [configitem_get, ge_iff_le, if_neg (Nat.not_le.mpr h)]
  · simp only [configitem_get, ge_iff_le, if_neg (Nat.not_le.mpr h)]
  · simp only [configitem_get, ge_iff_le, if_neg (Nat.not_le.mpr h)]
  · simp only [configitem_get]
    rw [if_neg (by simp [Nat.not_le.mpr h])]
  · simp only [configitem_get, if_neg (Nat.not_lt.mpr h)]
  · simp only [configitem_get]
    rw [if_neg (by simp [h])]

/-- C17 at a concrete input: target firmware 2 (below every threshold)
outside recovery boot. -/
theorem status_is_zero_or_two_witness :
    ({ sampleEnv with exosphere_get_target_firmware := 2
                      bootconfig_is_recovery_boot := false }).exosphere_get_target_firmware
      < ({ sampleEnv with exosphere_get_target_firmware := 2
                          bootconfig_is_recovery_boot := false }).EXOSPHERE_TARGET_FIRMWARE_300 ∧
    (configitem_get { sampleEnv with exosphere_get_target_firmware := 2
                                     bootconfig_is_recovery_boot := false }
        State.boot true CONFIGITEM_ISQUESTUNIT [9]).status = 2 ∧
    (configitem_get { sampleEnv with exosphere_get_target_firmware := 2
                                     bootconfig_is_recovery_boot := false }
        State.boot true CONFIGITEM_PACKAGE2HASH_5X [9]).status = 2 :=
  ⟨by decide,
   (status_is_zero_or_two { sampleEnv with exosphere_get_target_firmware := 2
                                           bootconfig_is_recovery_boot := false }
      State.boot true CONFIGITEM_DRAMID [9] 0).2.2.2.1 (by decide),
   (status_is_zero_or_two { sampleEnv with exosphere_get_target_firmware := 2
                                           bootconfig_is_recovery_boot := false }
      State.boot true CONFIGITEM_DRAMID [9] 0).2.2.2.2.2.2 rfl⟩

/-! ## The influence of the privilege argument and of the target firmware -/

/-- C18: the privilege argument of `configitem_get` influences nothing except
the `CONFIGITEM_ISDEBUGMODE` value.  For every item, environment and state the
privileged and the unprivileged call return the same status; for every item
other than `CONFIGITEM_ISDEBUGMODE` they return the same output as well; and
for `CONFIGITEM_ISDEBUGMODE` the two results are equal whenever
`g_debugmode_override_user = g_debugmode_override_priv`. -/
theorem configitem_get_privilege_influence (e : Env) (s : State) (item : ConfigItem)
    (p_outvalue : OutBuf) :
    (configitem_get e s true item p_outvalue).status
      = (configitem_get e s false item p_outvalue).status ∧
    (item ≠ CONFIGITEM_ISDEBUGMODE →
      configitem_get e s true item p_outvalue = configitem_get e s false item p_outvalue) ∧
    (s.g_debugmode_override_user = s.g_debugmode_override_priv →
      configitem_get e s true CONFIGITEM_ISDEBUGMODE p_outvalue
        = configitem_get e s false CONFIGITEM_ISDEBUGMODE p_outvalue) := by
  refine ⟨?_, fun hne => ?_, fun heq => ?_⟩
  · cases item <;> first
      | rfl
      | (simp only [configitem_get]; split_ifs <;> rfl)
  · cases item <;> first
      | rfl
      | exact absurd rfl hne
  · simp only [configitem_get, heq, Bool.true_and, Bool.false_and, Bool.not_true,
      Bool.not_false, Bool.or_false, Bool.false_or]

/-- C18 at a concrete input: the device id read by both classifications, and
the debug-mode item read by both while both overrides are set. -/
theorem configitem_get_privilege_influence_witness :
    CONFIGITEM_DEVICEID ≠ CONFIGITEM_ISDEBUGMODE ∧
    configitem_get sampleEnv ⟨false, true, false⟩ true CONFIGITEM_DEVICEID [9]
      = configitem_get sampleEnv ⟨false, true, false⟩ false CONFIGITEM_DEVICEID [9] ∧
    (⟨false, true, true⟩ : State).g_debugmode_override_user
      = (⟨false, true, true⟩ : State).g_debugmode_override_priv ∧
    configitem_get sampleEnv ⟨false, true, true⟩ true CONFIGITEM_ISDEBUGMODE [9]
      = configitem_get sampleEnv ⟨false, true, true⟩ false CONFIGITEM_ISDEBUGMODE [9] :=
  ⟨by decide,
   (configitem_get_privilege_influence sampleEnv ⟨false, true, false⟩ CONFIGITEM_DEVICEID
     [9]).2.1 (by decide),
   rfl,
   (configitem_get_privilege_influence sampleEnv ⟨false, true, true⟩ CONFIGITEM_DEVICEID
     [9]).2.2 rfl⟩

/-- C19: availability is monotone in the target firmware for every item
except `CONFIGITEM_BOOTREASON`.  With privilege, collaborator facts, constants
and state fixed, if `configitem_get` returns status 0 at the target firmware
of `e` and the item is not `CONFIGITEM_BOOTREASON`, it returns status 0 at
every target firmware `v2` at or above it, with the same result unless the
item is `CONFIGITEM_EXOSPHERE_VERSION`.  `CONFIGITEM_BOOTREASON` does turn
from success to failure: it succeeds below the 400 threshold and fails at
every target firmware at or above it. -/
theorem configitem_get_monotone_in_target_firmware (e : Env) (s : State)
    (privileged : Bool) (item : ConfigItem) (p_outvalue : OutBuf) (v2 : Nat) :
    (e.exosphere_get_target_firmware ≤ v2 → item ≠ CONFIGITEM_BOOTREASON →
      (configitem_get e s privileged item p_outvalue).status = 0 →
      (configitem_get { e with exosphere_get_target_firmware := v2 } s privileged item
          p_outvalue).status = 0 ∧
      (item ≠ CONFIGITEM_EXOSPHERE_VERSION →
        configitem_get { e with exosphere_get_target_firmware := v2 } s privileged item
            p_outvalue
          = configitem_get e s privileged item p_outvalue)) ∧
    (e.exosphere_get_target_firmware < e.EXOSPHERE_TARGET_FIRMWARE_400 →
      e.EXOSPHERE_TARGET_FIRMWARE_400 ≤ v2 →
      e.exosphere_get_target_firmware ≤ v2 ∧
      (configitem_get e s privileged CONFIGITEM_BOOTREASON p_outvalue).status = 0 ∧
      (configitem_get { e with exosphere_get_target_firmware := v2 } s privileged
          CONFIGITEM_BOOTREASON p_outvalue).status = 2) := by
  refine ⟨fun hv hne hok => ?_, fun hlt hge => ⟨by omega, ?_, ?_⟩⟩
  · cases item
    case CONFIGITEM_BOOTREASON => exact absurd rfl hne
    case CONFIGITEM_EXOSPHERE_VERSION => exact ⟨rfl, fun h => absurd rfl h⟩
    case CONFIGITEM_ISQUESTUNIT =>
      simp only [configitem_get, ge_iff_le] at hok ⊢
      split_ifs at hok with h1
      rw [if_pos (le_trans h1 hv), if_pos h1]
      exact ⟨rfl, fun _ => rfl⟩
    case CONFIGITEM_NEWHARDWARETYPE_5X =>
      simp only [configitem_get, ge_iff_le] at hok ⊢
      split_ifs at hok with h1
      rw [if_pos (le_trans h1 hv), if_pos h1]
      exact ⟨rfl, fun _ => rfl⟩
    case CONFIGITEM_NEWKEYGENERATION_5X =>
      simp only [configitem_get, ge_iff_le] at hok ⊢
      split_ifs at hok with h1
      rw [if_pos (le_trans h1 hv), if_pos h1]
      exact ⟨rfl, fun _ => rfl⟩
    case CONFIGITEM_PACKAGE2HASH_5X =>
      simp only [configitem_get, ge_iff_le] at hok ⊢
      split_ifs at hok with h1
      have h2 : e.EXOSPHERE_TARGET_FIRMWARE_500 ≤ e.exosphere_get_target_firmware ∧
          e.bootconfig_is_recovery_boot = true := by simpa using h1
      rw [if_pos (by simpa using ⟨le_trans h2.1 hv, h2.2⟩), if_pos h1]
      exact ⟨rfl, fun _ => rfl⟩
    case CONFIGITEM_ISDEBUGMODE =>
      simp only [configitem_get]
      split_ifs <;> exact ⟨rfl, fun _ => trivial⟩
    case unlisted raw => exact absurd hok (by simp [configitem_get])
    all_goals exact ⟨rfl, fun _ => rfl⟩
  · simp only [configitem_get, if_pos hlt]
  · simp only [configitem_get]
    rw [if_neg (Nat.not_lt.mpr hge)]

/-- C19 at concrete inputs: the quest-unit item stays available from target
firmware 3 to 5 with the same result, while the boot reason is available at 3
and unsupported at 5 (thresholds 3, 4, 5). -/
theorem configitem_get_monotone_in_target_firmware_witness :
    (configitem_get { sampleEnv with exosphere_get_target_firmware := 3 } State.boot true
        CONFIGITEM_ISQUESTUNIT [9]).status = 0 ∧
    configitem_get sampleEnv State.boot true CONFIGITEM_ISQUESTUNIT [9]
      = configitem_get { sampleEnv with exosphere_get_target_firmware := 3 } State.boot true
          CONFIGITEM_ISQUESTUNIT [9] ∧
    (configitem_get { sampleEnv with exosphere_get_target_firmware := 3 } State.boot true
        CONFIGITEM_BOOTREASON [9]).status = 0 ∧
    (configitem_get sampleEnv State.boot true CONFIGITEM_BOOTREASON [9]).status = 2 :=
  ⟨by decide,
   ((configitem_get_monotone_in_target_firmware
      { sampleEnv with exosphere_get_target_firmware := 3 } State.boot true
      CONFIGITEM_ISQUESTUNIT [9] 5).1 (by decide) (by decide) (by decide)).2 (by decide),
   ((configitem_get_monotone_in_target_firmware
      { sampleEnv with exosphere_get_target_firmware := 3 } State.boot true
      CONFIGITEM_ISQUESTUNIT [9] 5).2 (by decide) (by decide)).2.1,
   ((configitem_get_monotone_in_target_firmware
      { sampleEnv with exosphere_get_target_firmware := 3 } State.boot true
      CONFIGITEM_ISQUESTUNIT [9] 5).2 (by decide) (by decide)).2.2⟩

/-! ## The battery-profile flag over sequences of calls -/

/-- After one call the battery-profile flag is `value != 0` when the call is a
write to `CONFIGITEM_BATTERYPROFILE`, and what it was otherwise. -/
theorem Call.next_battery_profile (e : Env) (s : State) (c : Call) :
    (c.next e s).g_battery_profile
      = match last_battery_write [c] with
        | some v => (v != 0)
        | none => s.g_battery_profile := by
  cases c with
  | set privileged item value => cases item <;> rfl
  | set_debugmode_override user priv => rfl
  | get privileged item p_outvalue =>
    show (configitem_get e s privileged item p_outvalue).state.g_battery_profile = _
    rw [configitem_get_state_eq]
    rfl

/-- After a sequence of calls the battery-profile flag is `value != 0` for the
most recent write to `CONFIGITEM_BATTERYPROFILE`, and what it was at the start
when there is none. -/
theorem run_calls_battery_profile (e : Env) (cs : List Call) :
    ∀ s : State, (run_calls e s cs).g_battery_profile
      = match last_battery_write cs with
        | some v => (v != 0)
        | none => s.g_battery_profile := by
  induction cs with
  | nil => intro s; rfl
  | cons c cs ih =>
    intro s
    show (run_calls e (c.next e s) cs).g_battery_profile = _
    rw [ih (c.next e s), Call.next_battery_profile e s c]
    simp only [last_battery_write]
    cases last_battery_write cs <;> rfl

/-- C20: in every state reached from the boot state by a sequence of
`configitem_set`, `configitem_set_debugmode_override` and `configitem_get`
calls, `configitem_should_profile_battery()` is true exactly when
`configitem_get(_, CONFIGITEM_BATTERYPROFILE)` succeeds with value 1 (and
false exactly when the value is 0).  Both are false in the boot state, and
the value equals `v != 0` for the value `v` of the most recent
`configitem_set` on `CONFIGITEM_BATTERYPROFILE` (false when there has been
none). -/
theorem battery_profile_accessor_agrees (e : Env) (cs : List Call) (q : Bool)
    (p_outvalue : OutBuf) :
    (configitem_get e (run_calls e State.boot cs) q CONFIGITEM_BATTERYPROFILE
        p_outvalue).status = 0 ∧
    (configitem_should_profile_battery (run_calls e State.boot cs) = true ↔
      load_u64 (configitem_get e (run_calls e State.boot cs) q CONFIGITEM_BATTERYPROFILE
        p_outvalue).out = 1) ∧
    (configitem_should_profile_battery (run_calls e State.boot cs) = false ↔
      load_u64 (configitem_get e (run_calls e State.boot cs) q CONFIGITEM_BATTERYPROFILE
        p_outvalue).out = 0) ∧
    configitem_should_profile_battery State.boot = false ∧
    load_u64 (configitem_get e State.boot q CONFIGITEM_BATTERYPROFILE p_outvalue).out = 0 ∧
    (∀ v : Nat, last_battery_write cs = some v →
      configitem_should_profile_battery (run_calls e State.boot cs) = (v != 0) ∧
      load_u64 (configitem_get e (run_calls e State.boot cs) q CONFIGITEM_BATTERYPROFILE
        p_outvalue).out = bool_to_int (v != 0)) ∧
    (last_battery_write cs = none →
      configitem_should_profile_battery (run_calls e State.boot cs) = false ∧
      load_u64 (configitem_get e (run_calls e State.boot cs) q CONFIGITEM_BATTERYPROFILE
        p_outvalue).out = 0) := by
  have hload : ∀ s : State,
      load_u64 (configitem_get e s q CONFIGITEM_BATTERYPROFILE p_outvalue).out
        = bool_to_int s.g_battery_profile := by
    intro s
    simp only [configitem_get, store_u64_bool_to_int]
    rfl
  have hrun := run_calls_battery_profile e cs State.boot
  refine ⟨rfl, ?_, ?_, rfl, rfl, fun v hv => ?_, fun hnone => ?_⟩
  · rw [hload]
    unfold configitem_should_profile_battery
    cases (run_calls e State.boot cs).g_battery_profile <;> decide
  · rw [hload]
    unfold configitem_should_profile_battery
    cases (run_calls e State.boot cs).g_battery_profile <;> decide
  · rw [hv] at hrun
    rw [hload]
    unfold configitem_should_profile_battery
    rw [hrun]
    exact ⟨rfl, rfl⟩
  · rw [hnone] at hrun
    rw [hload]
    unfold configitem_should_profile_battery
    rw [hrun]
    exact ⟨rfl, rfl⟩

/-- C20 at a concrete input: an unprivileged write of 5, an override call, a
read, a rejected write to another item, then a privileged write of 0 and an
unprivileged write of 3; the most recent write is 3, so the flag is set. -/
theorem battery_profile_accessor_agrees_witness :
    last_battery_write
      [Call.set false CONFIGITEM_BATTERYPROFILE 5, Call.set_debugmode_override true false,
       Call.get true CONFIGITEM_BATTERYPROFILE [9], Call.set true CONFIGITEM_DRAMID 0,
       Call.set true CONFIGITEM_BATTERYPROFILE 0, Call.set false CONFIGITEM_BATTERYPROFILE 3]
      = some 3 ∧
    configitem_should_profile_battery (run_calls sampleEnv State.boot
      [Call.set false CONFIGITEM_BATTERYPROFILE 5, Call.set_debugmode_override true false,
       Call.get true CONFIGITEM_BATTERYPROFILE [9], Call.set true CONFIGITEM_DRAMID 0,
       Call.set true CONFIGITEM_BATTERYPROFILE 0, Call.set false CONFIGITEM_BATTERYPROFILE 3])
      = true ∧
    load_u64 (configitem_get sampleEnv (run_calls sampleEnv State.boot
      [Call.set false CONFIGITEM_BATTERYPROFILE 5, Call.set_debugmode_override true false,
       Call.get true CONFIGITEM_BATTERYPROFILE [9], Call.set true CONFIGITEM_DRAMID 0,
       Call.set true CONFIGITEM_BATTERYPROFILE 0, Call.set false CONFIGITEM_BATTERYPROFILE 3])
      false CONFIGITEM_BATTERYPROFILE [9]).out = 1 :=
  ⟨by decide,
   (battery_profile_accessor_agrees sampleEnv
      [Call.set false CONFIGITEM_BATTERYPROFILE 5, Call.set_debugmode_override true false,
       Call.get true CONFIGITEM_BATTERYPROFILE [9], Call.set true CONFIGITEM_DRAMID 0,
       Call.set true CONFIGITEM_BATTERYPROFILE 0, Call.set false CONFIGITEM_BATTERYPROFILE 3]
      false [9]).2.2.2.2.2.1 3 (by decide)⟩

end Exosphere
